import Mathlib

/-!
Verification of the agent-extractor document pipeline: a shallow embedding of
the document router, extractor dispatch, validator aggregation and orchestrator
from the repository's Python sources, together with theorems settling the
specification claims about them.
-/

namespace AgentExtractor

/-- Extraction methods, from `src/extraction/router.py` (`ExtractionMethod`). -/
inductive ExtractionMethod where
  | llm_text
  | llm_vision
  | document_intelligence
deriving DecidableEq, Repr

/-- Supported document types, from `src/extraction/router.py` (`DocumentType`). -/
inductive DocumentType where
  | pdf
  | docx
  | png
  | jpg
  | jpeg
deriving DecidableEq, Repr

/-- String value of a document type, mirroring the Python enum values. -/
def DocumentType.value : DocumentType → String
  | .pdf => "pdf"
  | .docx => "docx"
  | .png => "png"
  | .jpg => "jpg"
  | .jpeg => "jpeg"

/-- Configuration of `DocumentRouter.__init__`. -/
structure RouterConfig where
  use_document_intelligence : Bool
  text_density_threshold : Nat
  low_resolution_threshold : Nat
  use_di_for_scanned : Bool
  use_di_for_low_text : Bool
  use_di_for_poor_quality : Bool
deriving DecidableEq, Repr

/-- Error raised by `_detect_document_type`, mirroring
`UnsupportedFileTypeError` from `src/exceptions.py` (its `file_type` and
`supported_types` attributes). -/
structure UnsupportedFileTypeErr where
  file_type : String
  supported_types : List String
deriving DecidableEq, Repr

/-- The `file_type_map` dict of `DocumentRouter._detect_document_type`,
in Python insertion order. -/
def fileTypeMap : List (String × DocumentType) :=
  [("pdf", DocumentType.pdf), ("docx", DocumentType.docx),
   ("png", DocumentType.png), ("jpg", DocumentType.jpg),
   ("jpeg", DocumentType.jpeg)]

/-- `DocumentRouter._detect_document_type`: validate the file type string,
raising `UnsupportedFileTypeError` with `supported = list(file_type_map.keys())`
when it is not a key of the map. -/
def detectDocumentType (file_type : String) :
    Except UnsupportedFileTypeErr DocumentType :=
  match fileTypeMap.lookup file_type with
  | some dt => .ok dt
  | none => .error ⟨file_type, fileTypeMap.map Prod.fst⟩

/-- The metadata dictionary built by `DocumentRouter._analyze_document` and the
per-format analyzers; each Python dict key becomes an `Option` field, `none`
meaning the key is absent. -/
structure AnalysisMeta where
  doc_type_val : String
  total_pages : Option Nat := none
  text_density : Option Nat := none
  has_extractable_text : Option Bool := none
  is_likely_scanned : Option Bool := none
  is_structured : Option Bool := none
  width : Option Nat := none
  height : Option Nat := none
  mode : Option String := none
  total_pixels : Option Nat := none
  is_low_resolution : Option Bool := none
  is_image : Option Bool := none
  error : Option String := none
  analysis_error : Option String := none
deriving DecidableEq, Repr

/-- Outcome of reading a PDF in `_analyze_pdf`: the page count and the first
page's extracted text (`extract_text() or ""` already applied). The `Except`
error case models the PDF reader raising. -/
structure PdfReadResult where
  totalPages : Nat
  firstPageText : String
deriving DecidableEq, Repr

/-- Outcome of decoding an image in `_analyze_image`: dimensions and mode. -/
structure ImageReadResult where
  width : Nat
  height : Nat
  mode : String
deriving DecidableEq, Repr

/-- JSON whitespace, as accepted between tokens by Python's `json.loads`. -/
def isWs (c : Char) : Bool :=
  c = ' ' || c = '\t' || c = '\n' || c = '\r'

/-- Drop leading JSON whitespace. -/
def skipWs : List Char → List Char
  | [] => []
  | c :: cs => if isWs c then skipWs cs else c :: cs

/-- Python's `str.strip()` over the character list: drop leading and trailing
whitespace (kernel-computable model). -/
def stripChars (cs : List Char) : List Char :=
  (skipWs ((skipWs cs).reverse)).reverse

/-- Length of the stripped string: models `len(text.strip())`. -/
def stripLen (s : String) : Nat :=
  (stripChars s.toList).length

/-- `DocumentRouter._analyze_pdf`: its whole body sits inside `try`, so a
reader failure is returned as the `"error"` key, never raised. On success with
pages, the text density is the stripped first-page text length, and
`is_likely_scanned = not (text_density > 50)`. -/
def analyzePdf (outcome : Except String PdfReadResult) (base : AnalysisMeta) :
    AnalysisMeta :=
  match outcome with
  | .error e => { base with error := some ("PDF analysis failed: " ++ e) }
  | .ok r =>
    if r.totalPages > 0 then
      let density := stripLen r.firstPageText
      let hasText := decide (density > 50)
      { base with
        total_pages := some r.totalPages
        text_density := some density
        has_extractable_text := some hasText
        is_likely_scanned := some (!hasText) }
    else
      { base with total_pages := some 0 }

/-- `DocumentRouter._analyze_docx`: DOCX always has extractable text. -/
def analyzeDocx (base : AnalysisMeta) : AnalysisMeta :=
  { base with has_extractable_text := some true, is_structured := some true }

/-- `DocumentRouter._analyze_image`: like `_analyze_pdf`, its whole body is
inside `try`, so decode failures are returned under the `"error"` key. -/
def analyzeImage (cfg : RouterConfig) (outcome : Except String ImageReadResult)
    (base : AnalysisMeta) : AnalysisMeta :=
  match outcome with
  | .error e => { base with error := some ("Image analysis failed: " ++ e) }
  | .ok r =>
    let totalPixels := r.width * r.height
    { base with
      width := some r.width
      height := some r.height
      mode := some r.mode
      total_pixels := some totalPixels
      is_low_resolution := some (decide (totalPixels < cfg.low_resolution_threshold))
      is_image := some true }

/-- `DocumentRouter._analyze_document`: start from `{"doc_type": ...}` and merge
the per-format analysis. The surrounding `try/except` that would record
`metadata["analysis_error"]` is dead for the current analyzers, because each of
them catches its own exceptions internally (returning an `"error"` key instead),
so this embedding is total and never sets `analysis_error`. -/
def analyzeDocument (cfg : RouterConfig) (dt : DocumentType)
    (pdfOutcome : Except String PdfReadResult)
    (imgOutcome : Except String ImageReadResult) : AnalysisMeta :=
  let base : AnalysisMeta := { doc_type_val := dt.value }
  match dt with
  | .pdf => analyzePdf pdfOutcome base
  | .docx => analyzeDocx base
  | .png => analyzeImage cfg imgOutcome base
  | .jpg => analyzeImage cfg imgOutcome base
  | .jpeg => analyzeImage cfg imgOutcome base

/-- `DocumentRouter._select_extraction_method`, translated branch for branch:
images always use vision, DOCX always uses text, and PDFs follow the
Document-Intelligence / vision / text decision chain with the dict `.get`
defaults (`is_likely_scanned` defaults to `False`, `text_density` to `0`). -/
def selectExtractionMethod (cfg : RouterConfig) (dt : DocumentType)
    (md : AnalysisMeta) : ExtractionMethod × String :=
  if dt = .png ∨ dt = .jpg ∨ dt = .jpeg then
    (.llm_vision, "Image document requires vision-capable model for extraction")
  else if dt = .docx then
    (.llm_text, "DOCX document has structured extractable text")
  else if dt = .pdf then
    let is_scanned := md.is_likely_scanned.getD false
    let text_density := md.text_density.getD 0
    let should_use_di :=
      if cfg.use_document_intelligence then
        if is_scanned && cfg.use_di_for_scanned then true
        else if decide (text_density < cfg.text_density_threshold) &&
            cfg.use_di_for_low_text then true
        else false
      else false
    if should_use_di then
      (.document_intelligence,
        "Scanned/low-text PDF (density: " ++ toString text_density ++
          ", threshold: " ++ toString cfg.text_density_threshold ++
          ") requires OCR preprocessing")
    else if is_scanned || decide (text_density < cfg.text_density_threshold) then
      (.llm_vision,
        "Scanned/low-text PDF (density: " ++ toString text_density ++
          ", threshold: " ++ toString cfg.text_density_threshold ++
          ") requires vision-capable model")
    else
      (.llm_text,
        "Digital PDF with extractable text (density: " ++ toString text_density ++
          ", threshold: " ++ toString cfg.text_density_threshold ++ ")")
  else
    (.llm_text, "Default text-based extraction")

/-- The routing decision returned by `analyze_and_route`. -/
structure RoutingDecision where
  method : ExtractionMethod
  doc_type : DocumentType
  reasoning : String
  metadata : AnalysisMeta
deriving DecidableEq, Repr

/-- `DocumentRouter.analyze_and_route`: detect the type, analyze, select.
Analysis outcomes for the PDF reader and the image decoder are passed in as
parameters, since they are external byte-parsing capabilities. -/
def analyzeAndRoute (cfg : RouterConfig) (file_type : String)
    (pdfOutcome : Except String PdfReadResult)
    (imgOutcome : Except String ImageReadResult) :
    Except UnsupportedFileTypeErr RoutingDecision :=
  match detectDocumentType file_type with
  | .error e => .error e
  | .ok dt =>
    let md := analyzeDocument cfg dt pdfOutcome imgOutcome
    let sel := selectExtractionMethod cfg dt md
    .ok ⟨sel.1, dt, sel.2, md⟩

/-- The extraction method a routed document ends up with, when routing
succeeds. -/
def routeMethod (cfg : RouterConfig) (file_type : String)
    (pdfOutcome : Except String PdfReadResult)
    (imgOutcome : Except String ImageReadResult) : Option ExtractionMethod :=
  match analyzeAndRoute cfg file_type pdfOutcome imgOutcome with
  | .ok d => some d.method
  | .error _ => none

/-- JSON values, as produced by Python's `json.loads`: `null`, booleans,
numbers (integers suffice for the inputs at issue), strings, arrays and
objects. -/
inductive Json where
  | null
  | bool (b : Bool)
  | num (n : Int)
  | str (s : String)
  | arr (xs : List Json)
  | obj (fields : List (String × Json))
deriving Repr

/-- Parse the body of a double-quoted JSON string (opening quote already
consumed), handling the common escapes. Single-quoted strings are not JSON and
are rejected, exactly as Python's strict `json.loads` rejects them. -/
def pStr : List Char → List Char → Option (String × List Char)
  | acc, '"' :: rest => some (String.mk acc.reverse, rest)
  | acc, '\\' :: c :: rest =>
    if c = '"' then pStr ('"' :: acc) rest
    else if c = '\\' then pStr ('\\' :: acc) rest
    else if c = '/' then pStr ('/' :: acc) rest
    else if c = 'n' then pStr ('\n' :: acc) rest
    else if c = 't' then pStr ('\t' :: acc) rest
    else if c = 'r' then pStr ('\r' :: acc) rest
    else none
  | acc, c :: rest => if c = '"' || c = '\\' then none else pStr (c :: acc) rest
  | _, [] => none

/-- Accumulate decimal digits; floats are outside this model and rejected. -/
def pNumAux : List Char → Nat → Bool → Option (Nat × List Char)
  | [], acc, seen => if seen then some (acc, []) else none
  | c :: cs, acc, seen =>
    if c.isDigit then pNumAux cs (acc * 10 + (c.toNat - 48)) true
    else if !seen then none
    else if c = '.' || c = 'e' || c = 'E' then none
    else some (acc, c :: cs)

/-- Parse a natural number literal. -/
def pNum (cs : List Char) : Option (Nat × List Char) :=
  pNumAux cs 0 false

mutual

/-- Recursive-descent JSON value parser modelling Python's `json.loads`
(strict mode: double-quoted strings only, no trailing commas). -/
def pValue : Nat → List Char → Option (Json × List Char)
  | 0, _ => none
  | fuel + 1, cs =>
    match skipWs cs with
    | '\x7b' :: rest => pObjBody fuel (skipWs rest)
    | '[' :: rest => pArrBody fuel (skipWs rest)
    | '"' :: rest => (pStr [] rest).map fun p => (Json.str p.1, p.2)
    | 't' :: 'r' :: 'u' :: 'e' :: rest => some (Json.bool true, rest)
    | 'f' :: 'a' :: 'l' :: 's' :: 'e' :: rest => some (Json.bool false, rest)
    | 'n' :: 'u' :: 'l' :: 'l' :: rest => some (Json.null, rest)
    | '-' :: rest =>
      match pNum rest with
      | some (n, r) => some (Json.num (-(n : Int)), r)
      | none => none
    | c :: rest =>
      if c.isDigit then
        match pNum (c :: rest) with
        | some (n, r) => some (Json.num (n : Int), r)
        | none => none
      else none
    | [] => none

/-- Parse an object body (opening brace and leading whitespace consumed). -/
def pObjBody : Nat → List Char → Option (Json × List Char)
  | 0, _ => none
  | _ + 1, '\x7d' :: rest => some (Json.obj [], rest)
  | fuel + 1, '"' :: rest =>
    match pStr [] rest with
    | none => none
    | some (key, afterKey) =>
      match skipWs afterKey with
      | ':' :: afterColon =>
        match pValue fuel afterColon with
        | none => none
        | some (v, afterVal) =>
          match skipWs afterVal with
          | ',' :: afterComma =>
            match skipWs afterComma with
            | '\x7d' :: _ => none
            | cs2 =>
              match pObjBody fuel cs2 with
              | some (Json.obj fields, r) => some (Json.obj ((key, v) :: fields), r)
              | _ => none
          | '\x7d' :: r => some (Json.obj [(key, v)], r)
          | _ => none
      | _ => none
  | _, _ => none

/-- Parse an array body (opening bracket and leading whitespace consumed). -/
def pArrBody : Nat → List Char → Option (Json × List Char)
  | 0, _ => none
  | _ + 1, ']' :: rest => some (Json.arr [], rest)
  | fuel + 1, cs =>
    match pValue fuel cs with
    | none => none
    | some (v, afterVal) =>
      match skipWs afterVal with
      | ',' :: afterComma =>
        match skipWs afterComma with
        | ']' :: _ => none
        | cs2 =>
          match pArrBody fuel cs2 with
          | some (Json.arr xs, r) => some (Json.arr (v :: xs), r)
          | _ => none
      | ']' :: r => some (Json.arr [v], r)
      | _ => none

end

/-- Model of Python's `json.loads`: parse a complete JSON value, allowing only
trailing whitespace. `none` models `json.JSONDecodeError`. -/
def jsonLoads (s : String) : Option Json :=
  let cs := s.toList
  match pValue (cs.length + 1) cs with
  | some (v, rest) => if (skipWs rest).isEmpty then some v else none
  | none => none

/-- Index of the last occurrence of `c`, mirroring Python's `str.rfind`
(with `none` for the -1 case). -/
def lastIdxOf (c : Char) (cs : List Char) : Option Nat :=
  match List.findIdx? (fun x => x = c) cs.reverse with
  | some i => some (cs.length - 1 - i)
  | none => none

/-- `ExtractionResultParser.parse` from `src/extraction/extractor.py`: strip
the reply, slice from the first brace to the last brace, and strict-JSON-parse
that slice. No YAML fallback and no double-brace stripping exist on this path
(those belong to `StructuredResponseParser`, which parses validation
responses). Both error cases raise `InvalidExtractionResultError`; the
`Except.error` strings carry the two distinct messages. -/
def extractionResultParse (resultText : String) : Except String Json :=
  let cs := stripChars resultText.toList
  match List.findIdx? (fun c => c = '\x7b') cs, lastIdxOf '\x7d' cs with
  | some startIdx, some endIdx =>
    let jsonText := (cs.drop startIdx).take (endIdx + 1 - startIdx)
    match jsonLoads (String.mk jsonText) with
    | some v => .ok v
    | none => .error "Failed to parse extraction result as JSON"
  | _, _ => .error "No JSON object found in response"

/-- Data element specification supplied by the caller; `description` and
`required` model the Python dict accesses `element.get('description')` and
`element.get('required', False)`. -/
structure DataElement where
  name : String
  description : Option String := none
  format : String := "string"
  required : Bool := false
deriving DecidableEq, Repr

/-- Domain errors of the extraction pipeline, one constructor per exception
class from `src/exceptions.py` that `Extractor.extract` can raise. -/
inductive ExtErr where
  | extractionError (msg : String)
  | requiredFieldMissing (name : String) (description : Option String)
  | invalidResult (msg : String)
  | textExtraction (msg : String)
  | visionExtraction (msg : String)
  | docIntelligence (msg : String)
  | docIntelligenceNotConfigured (msg : String)
deriving DecidableEq, Repr

/-- `ExtractionPayload` from `src/extraction/extractor.py`. -/
structure ExtractionPayload where
  data : List (String × Json)
  document_content : Option String
deriving Repr

/-- Python truthiness of an optional string: `None` and `""` are falsy. -/
def strTruthy : Option String → Bool
  | none => false
  | some s => !s.isEmpty

/-- The `image_data` dictionary handed to vision extraction: base64 payload
and media type (plus optional image metadata). A present `ImgData` value
models a non-empty Python dict, hence truthy. -/
structure ImgData where
  base64_data : String
  media_type : String
  width : Option Nat := none
  height : Option Nat := none
deriving DecidableEq, Repr

/-- The three input modes `Extractor.extract` can dispatch to. -/
inductive Mode where
  | di
  | image
  | text
deriving DecidableEq, Repr

/-- The dispatch chain at the top of `Extractor.extract`:
document intelligence when enabled with a truthy `document_base64`, else
vision when `image_data` is truthy (a present value models a non-empty Python
dict), else text when `text` is truthy, else no viable mode. `ImgData` stands
for the `image_data` dictionary. -/
def dispatchMode (useDI : Bool) (docB64 : Option String)
    (img : Option ImgData) (text : Option String) : Option Mode :=
  if useDI && strTruthy docB64 then some .di
  else if img.isSome then some .image
  else if strTruthy text then some .text
  else none

/-- Whether a field is absent from the extracted data or bound to JSON null:
`field_name not in payload.data or payload.data[field_name] is None`. -/
def isMissingOrNull (data : List (String × Json)) (name : String) : Bool :=
  match data.lookup name with
  | none => true
  | some .null => true
  | some _ => false

/-- The required-field loop at the end of `Extractor.extract`: walk the data
elements in order and raise `RequiredFieldMissingError(field_name,
field_description)` at the first required element that is missing or null;
otherwise hand the strategy's payload back unchanged. -/
def checkRequired : List DataElement → ExtractionPayload →
    Except ExtErr ExtractionPayload
  | [], p => .ok p
  | el :: rest, p =>
    if el.required && isMissingOrNull p.data el.name then
      .error (.requiredFieldMissing el.name el.description)
    else checkRequired rest p

/-- `Extractor.extract`: dispatch to a strategy and then run the
required-field check on its payload. The strategies themselves invoke external
LLM/OCR backends, so their outcomes are supplied as a function of the chosen
mode. -/
def extract (useDI : Bool) (docB64 : Option String) (img : Option ImgData)
    (text : Option String) (elements : List DataElement)
    (strat : Mode → Except ExtErr ExtractionPayload) :
    Except ExtErr ExtractionPayload :=
  match dispatchMode useDI docB64 img text with
  | none => .error (.extractionError "No valid input provided for extraction")
  | some m => (strat m).bind (checkRequired elements)

/-- One entry of the parsed validation response, mirroring
`FieldValidationResult` from `src/extraction/validator.py` (confidence scores
are modelled as rationals). -/
structure FieldVR where
  is_valid : Bool
  confidence_score : ℚ
deriving DecidableEq, Repr

/-- `ValidationResult` from `src/extraction/validator.py`. -/
structure ValidationResult where
  success : Bool
  field_results : List (String × FieldVR)
  overall_confidence : ℚ
  errors : List String
deriving DecidableEq, Repr

/-- Error text for a required field absent from the validation response. -/
def missingFromValidationMsg (name : String) : String :=
  "Required field \x27" ++ name ++ "\x27 missing from validation results"

/-- Error text for a required field scored below the configured threshold. -/
def belowThresholdMsg (name : String) (c threshold : ℚ) : String :=
  "Required field \x27" ++ name ++ "\x27 confidence " ++ toString c ++
    " below threshold " ++ toString threshold

/-- Error text for a required field the model marked invalid. -/
def failedValidationMsg (name : String) : String :=
  "Required field \x27" ++ name ++ "\x27 failed validation"

/-- One iteration of the per-element loop in `Validator.validate`: look the
element up in the parsed validation map, record its confidence score, and for
required elements fire the threshold error and the invalid error
independently. -/
def aggStep (threshold : ℚ) (fieldResults : List (String × FieldVR))
    (acc : List String × List ℚ) (el : DataElement) : List String × List ℚ :=
  match fieldResults.lookup el.name with
  | none =>
    if el.required then (acc.1 ++ [missingFromValidationMsg el.name], acc.2)
    else acc
  | some fr =>
    let scores := acc.2 ++ [fr.confidence_score]
    let errs :=
      if el.required then
        let errs1 :=
          if fr.confidence_score < threshold then
            acc.1 ++ [belowThresholdMsg el.name fr.confidence_score threshold]
          else acc.1
        if fr.is_valid then errs1 else errs1 ++ [failedValidationMsg el.name]
      else acc.1
    (errs, scores)

/-- The aggregation tail of `Validator.validate` (source lines 294-341): run
the per-element loop, append the "no confidence scores" error when nothing was
scored, average the collected scores (0.0 when empty), and succeed exactly
when no error fired. -/
def validateAggregate (threshold : ℚ) (elements : List DataElement)
    (fieldResults : List (String × FieldVR)) : ValidationResult :=
  let acc := elements.foldl (aggStep threshold fieldResults) ([], [])
  let errs :=
    if acc.2.isEmpty then acc.1 ++ ["Validation produced no confidence scores"]
    else acc.1
  let overall : ℚ :=
    if acc.2.isEmpty then 0 else acc.2.sum / (acc.2.length : ℚ)
  { success := errs.isEmpty
    field_results := fieldResults
    overall_confidence := overall
    errors := errs }

/-- The confidence scores the validation response supplies for the declared
data elements, in declaration order (extra response entries for undeclared
fields contribute nothing). -/
def declaredScores (elements : List DataElement)
    (fieldResults : List (String × FieldVR)) : List ℚ :=
  elements.filterMap fun el =>
    (fieldResults.lookup el.name).map (·.confidence_score)

/-- `Validator.validate`: with no data elements it fails fast, returning the
single-error result without touching the backend; otherwise it builds the
prompt, makes exactly one backend call and aggregates the parsed response.
The backend call plus response parsing is supplied as an `Except` (its error
case models the call or the parse raising, which propagates). The second
component counts backend invocations. -/
def validatorValidate (threshold : ℚ) (documentContent : String)
    (elements : List DataElement) (extractedData : List (String × Json))
    (backend : Except String (List (String × FieldVR))) :
    Except String (ValidationResult × Nat) :=
  if elements.isEmpty then
    .ok ({ success := false
           field_results := []
           overall_confidence := 0
           errors := ["Validation requires at least one data element"] }, 0)
  else
    match backend with
    | .error e => .error e
    | .ok fieldResults => .ok (validateAggregate threshold elements fieldResults, 1)

/-- `ExtractionResult` from `src/agents/extractor_agent.py` (the orchestrator's
view of stage one). `metadata` is an open string map. -/
structure ExtractionResult where
  success : Bool
  data : List (String × Json)
  error : Option String
  metadata : List (String × String)
  document_content : Option String
deriving Repr

/-- `ValidatorAgentInput` from `src/agents/validator_agent.py`. -/
structure ValidatorAgentInput where
  document_content : String
  data_elements : List DataElement
  extracted_data : List (String × Json)
  metadata : List (String × String)
deriving Repr

/-- `ValidatorAgentOutput` from `src/agents/validator_agent.py`. -/
structure ValidatorAgentOutput where
  success : Bool
  validated_data : List (String × Json)
  confidence_scores : List (String × ℚ)
  overall_confidence : ℚ
  errors : List String
  metadata : List (String × String)
deriving Repr

/-- `ValidatorAgent.validate`: when the inner `Validator.validate` returns a
result, hand the input's extracted data through unchanged as `validated_data`
and project out the confidence scores; when it raises, return the failed
output with empty data. (The `field_details` merge into the output metadata is
omitted; no claim depends on it.) -/
def validatorAgentValidate (inner : Except String ValidationResult)
    (input : ValidatorAgentInput) : ValidatorAgentOutput :=
  match inner with
  | .ok vr =>
    { success := vr.success
      validated_data := input.extracted_data
      confidence_scores := vr.field_results.map fun p => (p.1, p.2.confidence_score)
      overall_confidence := vr.overall_confidence
      errors := vr.errors
      metadata := input.metadata }
  | .error e =>
    { success := false
      validated_data := []
      confidence_scores := []
      overall_confidence := 0
      errors := ["Validation failed: " ++ e]
      metadata := input.metadata }

/-- `OrchestrationResult` from `src/agents/orchestrator.py`; the nested
`metadata["validation"]` summary dict is the `validation_summary` pair of
overall confidence and scored-field count, present only on the merge path. -/
structure OrchestrationResult where
  success : Bool
  extracted_data : List (String × Json)
  confidence_scores : List (String × ℚ)
  overall_confidence : ℚ
  errors : List String
  metadata_base : List (String × String)
  validation_summary : Option (ℚ × Nat)
deriving Repr

/-- `ExtractionOrchestrator.orchestrate`: run extraction; on failure
short-circuit with the extractor's error and partial metadata, never touching
the validator; on success hand `document_content` (or the best-effort
re-derivation `rederived`) plus the extracted data to the validator agent and
merge both stages. The second component counts validator invocations. -/
def orchestrate (ext : ExtractionResult) (elements : List DataElement)
    (validatorFn : ValidatorAgentInput → ValidatorAgentOutput)
    (rederived : String) : OrchestrationResult × Nat :=
  if ext.success then
    let documentContent :=
      match ext.document_content with
      | some c => if c.isEmpty then rederived else c
      | none => rederived
    let input : ValidatorAgentInput :=
      { document_content := documentContent
        data_elements := elements
        extracted_data := ext.data
        metadata := ext.metadata }
    let vout := validatorFn input
    let extErrors := match ext.error with
      | some e => if e.isEmpty then [] else [e]
      | none => []
    ({ success := ext.success && vout.success
       extracted_data := vout.validated_data
       confidence_scores := vout.confidence_scores
       overall_confidence := vout.overall_confidence
       errors := extErrors ++ vout.errors
       metadata_base := ext.metadata
       validation_summary := some (vout.overall_confidence, vout.confidence_scores.length) }, 1)
  else
    ({ success := false
       extracted_data := []
       confidence_scores := []
       overall_confidence := 0
       errors :=
         match ext.error with
         | some e => if e.isEmpty then ["Extraction failed"] else [e]
         | none => ["Extraction failed"]
       metadata_base := ext.metadata
       validation_summary := none }, 0)

/-! Theorems. Shared helper lemmas first, then one theorem per claim (with
its witness or counterexample where required). -/

/-- The required-field loop errs exactly at the first required element whose
value is missing or null, and returns the payload unchanged otherwise. -/
theorem checkRequired_eq_find (elements : List DataElement)
    (p : ExtractionPayload) :
    checkRequired elements p =
      match elements.find? (fun el => el.required && isMissingOrNull p.data el.name) with
      | some el => .error (.requiredFieldMissing el.name el.description)
      | none => .ok p := by
  induction elements with
  | nil => rfl
  | cons el rest ih =>
    by_cases h : (el.required && isMissingOrNull p.data el.name) = true
    · simp [checkRequired, List.find?, h]
    · simp only [checkRequired, List.find?, h, if_neg, Bool.false_eq_true,
        not_false_eq_true]
      simpa [h] using ih

/-- The scores accumulated by the validator's per-element loop are exactly the
confidences the response supplies for the declared elements, appended to the
incoming accumulator. -/
theorem declaredScores_cons (el : DataElement) (rest : List DataElement)
    (fieldResults : List (String × FieldVR)) :
    declaredScores (el :: rest) fieldResults =
      declaredScores [el] fieldResults ++ declaredScores rest fieldResults := by
  cases hl : fieldResults.lookup el.name <;>
    simp [declaredScores, List.filterMap_cons, hl]

theorem aggStep_scores (threshold : ℚ) (fieldResults : List (String × FieldVR)) :
    ∀ (l : List DataElement) (errs : List String) (sc : List ℚ),
      (List.foldl (aggStep threshold fieldResults) (errs, sc) l).2 =
        sc ++ declaredScores l fieldResults := by
  intro l
  induction l with
  | nil => intro errs sc; simp [declaredScores]
  | cons el rest ih =>
    intro errs sc
    have hsnd : (aggStep threshold fieldResults (errs, sc) el).2 =
        sc ++ declaredScores [el] fieldResults := by
      cases hl : fieldResults.lookup el.name <;> cases hr : el.required <;>
        simp [aggStep, hl, hr, declaredScores]
    have hstep : aggStep threshold fieldResults (errs, sc) el =
        ((aggStep threshold fieldResults (errs, sc) el).1,
         sc ++ declaredScores [el] fieldResults) := by
      rw [← hsnd]
    rw [List.foldl_cons, hstep, ih _ _, List.append_assoc,
      ← declaredScores_cons]

/-- C1: the routing decision table. Image types always route to `llm_vision`
and DOCX to `llm_text`; for a non-empty PDF, `is_likely_scanned` holds exactly
when the stripped first-page text length is at most 50 characters,
`document_intelligence` is chosen if and only if the OCR backend is available
and ((scanned and `use_di_for_scanned`) or (density below threshold and
`use_di_for_low_text`)), otherwise `llm_vision` exactly when scanned or below
threshold (no error even without OCR), otherwise `llm_text`. -/
theorem routing_decision_table (cfg : RouterConfig) (n : Nat) (t : String)
    (pdfOut : Except String PdfReadResult)
    (imgOut : Except String ImageReadResult) :
    (routeMethod cfg "png" pdfOut imgOut = some ExtractionMethod.llm_vision ∧
     routeMethod cfg "jpg" pdfOut imgOut = some ExtractionMethod.llm_vision ∧
     routeMethod cfg "jpeg" pdfOut imgOut = some ExtractionMethod.llm_vision ∧
     routeMethod cfg "docx" pdfOut imgOut = some ExtractionMethod.llm_text) ∧
    ((analyzeDocument cfg .pdf (.ok ⟨n + 1, t⟩) imgOut).is_likely_scanned =
      some (decide (stripLen t ≤ 50))) ∧
    (routeMethod cfg "pdf" (.ok ⟨n + 1, t⟩) imgOut =
        some ExtractionMethod.document_intelligence ↔
      cfg.use_document_intelligence = true ∧
        ((stripLen t ≤ 50 ∧ cfg.use_di_for_scanned = true) ∨
         (stripLen t < cfg.text_density_threshold ∧
           cfg.use_di_for_low_text = true))) ∧
    (routeMethod cfg "pdf" (.ok ⟨n + 1, t⟩) imgOut ≠
        some ExtractionMethod.document_intelligence →
      (routeMethod cfg "pdf" (.ok ⟨n + 1, t⟩) imgOut =
          some ExtractionMethod.llm_vision ↔
        stripLen t ≤ 50 ∨ stripLen t < cfg.text_density_threshold)) ∧
    (¬ stripLen t ≤ 50 → ¬ stripLen t < cfg.text_density_threshold →
      routeMethod cfg "pdf" (.ok ⟨n + 1, t⟩) imgOut =
        some ExtractionMethod.llm_text) := by
  have hmd : analyzeDocument cfg .pdf (.ok ⟨n + 1, t⟩) imgOut =
      { doc_type_val := "pdf"
        total_pages := some (n + 1)
        text_density := some (stripLen t)
        has_extractable_text := some (decide (50 < stripLen t))
        is_likely_scanned := some (!decide (50 < stripLen t)) } := by
    simp [analyzeDocument, analyzePdf, DocumentType.value]
  have hroute : routeMethod cfg "pdf" (.ok ⟨n + 1, t⟩) imgOut =
      some (selectExtractionMethod cfg .pdf
        (analyzeDocument cfg .pdf (.ok ⟨n + 1, t⟩) imgOut)).1 := rfl
  refine ⟨⟨rfl, rfl, rfl, rfl⟩, ?_, ?_, ?_, ?_⟩
  · rw [hmd]
    simp only [Option.some.injEq]
    rw [← decide_not, decide_eq_decide]
    omega
  all_goals
    rw [hroute, hmd]
    rcases cfg with ⟨udi, th, lrt, ds, dlt, dpq⟩
    cases udi <;> cases ds <;> cases dlt <;>
      rcases hb : decide (50 < stripLen t) <;>
      rcases hd : decide (stripLen t < th) <;>
      simp_all [selectExtractionMethod]
    all_goals
      rw [if_neg (by omega)]
      try simp
      try omega

/-- C1 witness: a scanned one-page PDF (empty first-page text) with the OCR
backend available and `use_di_for_scanned` set routes to document
intelligence. -/
theorem routing_decision_table_w :
    routeMethod ⟨true, 100, 500000, true, true, true⟩ "pdf"
        (.ok ⟨1, ""⟩) (.error "img") =
      some ExtractionMethod.document_intelligence := by
  have h := routing_decision_table ⟨true, 100, 500000, true, true, true⟩ 0 ""
    (.ok ⟨1, ""⟩) (.error "img")
  exact (h.2.2.1).mpr ⟨rfl, Or.inl ⟨by decide, rfl⟩⟩

/-- C7 counterexample: for the unsupported type "txt" the raised error lists
the five supported types in declaration order (`pdf, docx, png, jpg, jpeg`),
which is not sorted — "pdf" precedes "docx". -/
theorem detect_supported_types_not_sorted :
    detectDocumentType "txt" =
      .error ⟨"txt", ["pdf", "docx", "png", "jpg", "jpeg"]⟩ ∧
    ¬ List.Sorted (fun a b : String => a ≤ b)
      ["pdf", "docx", "png", "jpg", "jpeg"] := by
  refine ⟨rfl, fun h => ?_⟩
  have hle : ("pdf" : String) ≤ "docx" :=
    (List.sorted_cons.mp h).1 "docx" (by simp)
  have hle2 : ("pdf" : String).toList ≤ ("docx" : String).toList :=
    String.le_iff_toList_le.mp hle
  exact absurd hle2 (by decide)

/-- C7 (amended): a file type is routable exactly when it is one of
`pdf, docx, png, jpg, jpeg`; any other string raises
`UnsupportedFileTypeError` carrying that file type and exactly the five
supported types, in declaration order (not sorted). -/
theorem detect_document_type_spec (ft : String) :
    ((ft = "pdf" ∨ ft = "docx" ∨ ft = "png" ∨ ft = "jpg" ∨ ft = "jpeg") ↔
      ∃ dt, detectDocumentType ft = .ok dt) ∧
    (∀ e, detectDocumentType ft = .error e →
      e.file_type = ft ∧
        e.supported_types = ["pdf", "docx", "png", "jpg", "jpeg"]) := by
  by_cases h1 : ft = "pdf"
  · subst h1; exact ⟨by simp [detectDocumentType, fileTypeMap, List.lookup], by
      intro e he; simp [detectDocumentType, fileTypeMap, List.lookup] at he⟩
  by_cases h2 : ft = "docx"
  · subst h2; exact ⟨by simp [detectDocumentType, fileTypeMap, List.lookup], by
      intro e he; simp [detectDocumentType, fileTypeMap, List.lookup] at he⟩
  by_cases h3 : ft = "png"
  · subst h3; exact ⟨by simp [detectDocumentType, fileTypeMap, List.lookup], by
      intro e he; simp [detectDocumentType, fileTypeMap, List.lookup] at he⟩
  by_cases h4 : ft = "jpg"
  · subst h4; exact ⟨by simp [detectDocumentType, fileTypeMap, List.lookup], by
      intro e he; simp [detectDocumentType, fileTypeMap, List.lookup] at he⟩
  by_cases h5 : ft = "jpeg"
  · subst h5; exact ⟨by simp [detectDocumentType, fileTypeMap, List.lookup], by
      intro e he; simp [detectDocumentType, fileTypeMap, List.lookup] at he⟩
  · have e1 : (ft == "pdf") = false := beq_eq_false_iff_ne.mpr h1
    have e2 : (ft == "docx") = false := beq_eq_false_iff_ne.mpr h2
    have e3 : (ft == "png") = false := beq_eq_false_iff_ne.mpr h3
    have e4 : (ft == "jpg") = false := beq_eq_false_iff_ne.mpr h4
    have e5 : (ft == "jpeg") = false := beq_eq_false_iff_ne.mpr h5
    have hl : fileTypeMap.lookup ft = none := by
      simp [fileTypeMap, List.lookup, e1, e2, e3, e4, e5]
    constructor
    · simp only [h1, h2, h3, h4, h5, or_self, false_iff, false_or]
      rintro ⟨dt, hdt⟩
      simp [detectDocumentType, hl] at hdt
    · intro e he
      simp only [detectDocumentType, hl] at he
      cases he
      exact ⟨rfl, rfl⟩

/-- C7 witness: the amended theorem applied at the concrete unsupported type
"txt", whose error carries "txt" and the declaration-order supported list. -/
theorem detect_document_type_spec_txt :
    (⟨"txt", ["pdf", "docx", "png", "jpg", "jpeg"]⟩ :
        UnsupportedFileTypeErr).file_type = "txt" ∧
    (⟨"txt", ["pdf", "docx", "png", "jpg", "jpeg"]⟩ :
        UnsupportedFileTypeErr).supported_types =
      ["pdf", "docx", "png", "jpg", "jpeg"] :=
  (detect_document_type_spec "txt").2
    ⟨"txt", ["pdf", "docx", "png", "jpg", "jpeg"]⟩ rfl

/-- C8 counterexample: with the default router configuration, a PDF whose
characteristic analysis fails still routes (to `llm_vision`), but the failure
is recorded under the metadata "error" key set by `_analyze_pdf`, while the
"analysis_error" key the claim names stays absent. -/
theorem analysis_error_key_not_used :
    analyzeAndRoute ⟨false, 100, 500000, true, true, true⟩ "pdf"
        (.error "boom") (.error "img") =
      .ok { method := .llm_vision
            doc_type := .pdf
            reasoning := "Scanned/low-text PDF (density: 0, threshold: 100) requires vision-capable model"
            metadata := { doc_type_val := "pdf"
                          error := some "PDF analysis failed: boom" } } ∧
    ({ doc_type_val := "pdf"
       error := some "PDF analysis failed: boom" } :
        AnalysisMeta).analysis_error = none :=
  ⟨rfl, rfl⟩

/-- C8 (amended): a failure inside PDF or image characteristic analysis never
aborts routing — `analyze_and_route` still returns a decision — and the
failure is recorded in the decision metadata under the "error" key by the
per-format analyzer (the "analysis_error" key is reserved for failures that
escape the per-format analyzer, which the current analyzers, catching
internally, never produce). -/
theorem analysis_failure_degrades (cfg : RouterConfig) (msg : String)
    (pdfOut : Except String PdfReadResult)
    (imgOut : Except String ImageReadResult) :
    (∃ d, analyzeAndRoute cfg "pdf" (.error msg) imgOut = .ok d ∧
      d.metadata.error = some ("PDF analysis failed: " ++ msg) ∧
      d.metadata.analysis_error = none) ∧
    (∃ d, analyzeAndRoute cfg "png" pdfOut (.error msg) = .ok d ∧
      d.metadata.error = some ("Image analysis failed: " ++ msg) ∧
      d.metadata.analysis_error = none) ∧
    (∃ d, analyzeAndRoute cfg "jpg" pdfOut (.error msg) = .ok d ∧
      d.metadata.error = some ("Image analysis failed: " ++ msg) ∧
      d.metadata.analysis_error = none) ∧
    (∃ d, analyzeAndRoute cfg "jpeg" pdfOut (.error msg) = .ok d ∧
      d.metadata.error = some ("Image analysis failed: " ++ msg) ∧
      d.metadata.analysis_error = none) :=
  ⟨⟨_, rfl, rfl, rfl⟩, ⟨_, rfl, rfl, rfl⟩, ⟨_, rfl, rfl, rfl⟩,
    ⟨_, rfl, rfl, rfl⟩⟩

/-- C2: when the extraction stage fails, the orchestrator short-circuits: the
validator function is never invoked (invocation count 0 and the result does
not depend on it), and the result is failed with empty data and scores,
overall confidence 0, the extraction error as the sole error (or a generic
message when none), and the extractor partial metadata. -/
theorem orchestrate_extraction_failure_short_circuits
    (data : List (String × Json)) (err : Option String)
    (md : List (String × String)) (dc : Option String)
    (elements : List DataElement)
    (validatorFn : ValidatorAgentInput → ValidatorAgentOutput)
    (rederived : String) :
    orchestrate ⟨false, data, err, md, dc⟩ elements validatorFn rederived =
      ({ success := false
         extracted_data := []
         confidence_scores := []
         overall_confidence := 0
         errors :=
           match err with
           | some e => if e.isEmpty then ["Extraction failed"] else [e]
           | none => ["Extraction failed"]
         metadata_base := md
         validation_summary := none }, 0) := rfl

/-- C2 witness: concrete failed extraction with error message "empty PDF": the
validator invocation count is 0 and the errors list carries the message. -/
theorem orchestrate_extraction_failure_short_circuits_w :
    orchestrate ⟨false, [], some "empty PDF", [("k", "v")], none⟩ []
        (fun input => ⟨true, input.extracted_data, [], 1, [], input.metadata⟩)
        "doc" =
      ({ success := false
         extracted_data := []
         confidence_scores := []
         overall_confidence := 0
         errors := ["empty PDF"]
         metadata_base := [("k", "v")]
         validation_summary := none }, 0) := by
  rw [orchestrate_extraction_failure_short_circuits]
  rfl

/-- C3: when extraction succeeds and the validation stage completes with
result `vr`, the merged orchestration result has
`success = extraction.success AND validation.success`, errors equal to the
truthy extraction error (if any) followed by all validation errors, and
`extracted_data` equal to the extractor data, handed through the validation
stage unchanged. -/
theorem orchestrate_merge (data : List (String × Json)) (err : Option String)
    (md : List (String × String)) (dc : Option String)
    (elements : List DataElement) (vr : ValidationResult) (rederived : String) :
    orchestrate ⟨true, data, err, md, dc⟩ elements
        (validatorAgentValidate (.ok vr)) rederived =
      ({ success := vr.success
         extracted_data := data
         confidence_scores :=
           vr.field_results.map fun p => (p.1, p.2.confidence_score)
         overall_confidence := vr.overall_confidence
         errors :=
           (match err with
            | some e => if e.isEmpty then [] else [e]
            | none => []) ++ vr.errors
         metadata_base := md
         validation_summary :=
           some (vr.overall_confidence,
             (vr.field_results.map fun p =>
               (p.1, p.2.confidence_score)).length) }, 1) := rfl

/-- C3 witness: scenario C — extraction succeeded with a required field, the
validator scored it 0.4 below threshold 0.8, so validation failed with the
threshold message while `extracted_data` still equals the extractor output. -/
theorem orchestrate_merge_w :
    orchestrate ⟨true, [("invoiceNumber", Json.str "42")], none, [], some "doc"⟩
        [⟨"invoiceNumber", some "the invoice number", "string", true⟩]
        (validatorAgentValidate (.ok (validateAggregate (4/5)
          [⟨"invoiceNumber", some "the invoice number", "string", true⟩]
          [("invoiceNumber", ⟨true, 2/5⟩)]))) "doc" =
      ({ success := false
         extracted_data := [("invoiceNumber", Json.str "42")]
         confidence_scores := [("invoiceNumber", 2/5)]
         overall_confidence := 2/5
         errors := [belowThresholdMsg "invoiceNumber" (2/5) (4/5)]
         metadata_base := []
         validation_summary := some (2/5, 1) }, 1) := by
  rw [orchestrate_merge]
  norm_num [validateAggregate, aggStep, declaredScores, List.lookup,
    missingFromValidationMsg, belowThresholdMsg, failedValidationMsg]

/-- C9: calling the validator with an empty data element list returns (does
not raise) the failed result with no field results, overall confidence 0 and
exactly the error "Validation requires at least one data element", with zero
backend invocations regardless of the backend outcome. -/
theorem validator_empty_elements (threshold : ℚ) (content : String)
    (extractedData : List (String × Json))
    (backend : Except String (List (String × FieldVR))) :
    validatorValidate threshold content [] extractedData backend =
      .ok ({ success := false
             field_results := []
             overall_confidence := 0
             errors := ["Validation requires at least one data element"] },
        0) := rfl

/-- C4: over a non-empty element list with a parsed validation response, the
validator makes one backend call and aggregates; `overall_confidence` is the
exact unweighted mean of the confidence scores the response supplies for the
declared elements, and when no declared element was scored it is 0 with the
"no confidence scores" error reported. -/
theorem validator_overall_confidence_mean (threshold : ℚ) (content : String)
    (extractedData : List (String × Json)) (el0 : DataElement)
    (rest : List DataElement) (fieldResults : List (String × FieldVR)) :
    validatorValidate threshold content (el0 :: rest) extractedData
        (.ok fieldResults) =
      .ok (validateAggregate threshold (el0 :: rest) fieldResults, 1) ∧
    (declaredScores (el0 :: rest) fieldResults ≠ [] →
      (validateAggregate threshold (el0 :: rest) fieldResults).overall_confidence =
        (declaredScores (el0 :: rest) fieldResults).sum /
          ((declaredScores (el0 :: rest) fieldResults).length : ℚ)) ∧
    (declaredScores (el0 :: rest) fieldResults = [] →
      (validateAggregate threshold (el0 :: rest) fieldResults).overall_confidence
          = 0 ∧
        "Validation produced no confidence scores" ∈
          (validateAggregate threshold (el0 :: rest) fieldResults).errors) := by
  have hsc : (List.foldl (aggStep threshold fieldResults) ([], [])
      (el0 :: rest)).2 = declaredScores (el0 :: rest) fieldResults := by
    simpa using aggStep_scores threshold fieldResults (el0 :: rest) [] []
  refine ⟨rfl, ?_, ?_⟩
  · intro hne
    have hemp : (declaredScores (el0 :: rest) fieldResults).isEmpty = false := by
      simpa [List.isEmpty_iff] using hne
    simp only [validateAggregate]
    rw [hsc, hemp]
    simp
  · intro he
    have hemp : (declaredScores (el0 :: rest) fieldResults).isEmpty = true := by
      simp [List.isEmpty_iff, he]
    simp only [validateAggregate]
    rw [hsc, hemp]
    simp

/-- C4 witness: one required element scored 9/10 by the response — the
declared-score list is non-empty and the overall confidence is its mean. -/
theorem validator_overall_confidence_mean_w :
    declaredScores [⟨"a", some "d", "string", true⟩]
        [("a", ⟨true, 9/10⟩)] ≠ [] ∧
    (validateAggregate (4/5) [⟨"a", some "d", "string", true⟩]
        [("a", ⟨true, 9/10⟩)]).overall_confidence =
      (declaredScores [⟨"a", some "d", "string", true⟩]
          [("a", ⟨true, 9/10⟩)]).sum /
        ((declaredScores [⟨"a", some "d", "string", true⟩]
            [("a", ⟨true, 9/10⟩)]).length : ℚ) :=
  ⟨by decide, (validator_overall_confidence_mean (4/5) "doc" []
      ⟨"a", some "d", "string", true⟩ [] [("a", ⟨true, 9/10⟩)]).2.1
    (by decide)⟩

/-- C5: whichever strategy the dispatch selects, once it returns a payload the
required-field check always runs: extraction errs with
`RequiredFieldMissingError` carrying the name and description of the first
required element missing or null in the data, and otherwise returns the
strategy payload unchanged. -/
theorem extract_required_field_check (useDI : Bool) (docB64 : Option String)
    (img : Option ImgData) (text : Option String) (elements : List DataElement)
    (strat : Mode → Except ExtErr ExtractionPayload) (m : Mode)
    (p : ExtractionPayload) (hm : dispatchMode useDI docB64 img text = some m)
    (hs : strat m = .ok p) :
    extract useDI docB64 img text elements strat =
      match elements.find?
          (fun el => el.required && isMissingOrNull p.data el.name) with
      | some el => .error (.requiredFieldMissing el.name el.description)
      | none => .ok p := by
  unfold extract
  rw [hm]
  show (strat m).bind (checkRequired elements) = _
  rw [hs]
  exact checkRequired_eq_find elements p

/-- C5 witness: the text strategy returns an empty payload while element "a"
is required — extraction raises the missing-field error with its name and
description. -/
theorem extract_required_field_check_w :
    extract false none none (some "doc")
        [⟨"a", some "descA", "string", true⟩] (fun _ => .ok ⟨[], none⟩) =
      .error (.requiredFieldMissing "a" (some "descA")) := by
  rw [extract_required_field_check false none none (some "doc")
    [⟨"a", some "descA", "string", true⟩] (fun _ => .ok ⟨[], none⟩)
    Mode.text ⟨[], none⟩ rfl rfl]
  rfl

/-- C10: the dispatch at the top of `Extractor.extract` resolves ambiguous
calls by fixed priority — document intelligence (enabled and truthy base64)
over image data over text — the "No valid input provided for extraction"
error arises exactly from the no-viable-mode branch, and a dispatched mode
runs its strategy followed by the required-field check. -/
theorem extract_dispatch_priority (useDI : Bool) (docB64 : Option String)
    (img : Option ImgData) (text : Option String) (elements : List DataElement)
    (strat : Mode → Except ExtErr ExtractionPayload) :
    (dispatchMode useDI docB64 img text = some Mode.di ↔
      useDI = true ∧ strTruthy docB64 = true) ∧
    (dispatchMode useDI docB64 img text = some Mode.image ↔
      ¬(useDI = true ∧ strTruthy docB64 = true) ∧ img.isSome = true) ∧
    (dispatchMode useDI docB64 img text = some Mode.text ↔
      ¬(useDI = true ∧ strTruthy docB64 = true) ∧ img.isSome = false ∧
        strTruthy text = true) ∧
    (dispatchMode useDI docB64 img text = none ↔
      ¬(useDI = true ∧ strTruthy docB64 = true) ∧ img.isSome = false ∧
        strTruthy text = false) ∧
    (dispatchMode useDI docB64 img text = none →
      extract useDI docB64 img text elements strat =
        .error (.extractionError "No valid input provided for extraction")) ∧
    (∀ m, dispatchMode useDI docB64 img text = some m →
      extract useDI docB64 img text elements strat =
        (strat m).bind (checkRequired elements)) := by
  have hn : dispatchMode useDI docB64 img text = none →
      extract useDI docB64 img text elements strat =
        .error (.extractionError "No valid input provided for extraction") := by
    intro h; simp [extract, h]
  have hsm : ∀ m, dispatchMode useDI docB64 img text = some m →
      extract useDI docB64 img text elements strat =
        (strat m).bind (checkRequired elements) := by
    intro m h; simp [extract, h]
  refine ⟨?_, ?_, ?_, ?_, hn, hsm⟩ <;>
    cases useDI <;>
    rcases h2 : strTruthy docB64 <;>
    rcases h3 : img.isSome <;>
    rcases h4 : strTruthy text <;>
    simp_all [dispatchMode]

/-- C10 witness: with no viable input mode, extraction returns exactly the
"No valid input provided for extraction" error. -/
theorem extract_dispatch_priority_w :
    extract false none none none [] (fun _ => .ok ⟨[], none⟩) =
      .error (.extractionError "No valid input provided for extraction") :=
  (extract_dispatch_priority false none none none []
    (fun _ => .ok ⟨[], none⟩)).2.2.2.2.1 rfl

/-- C6 counterexample: on the single-quoted YAML-style map the extractor's
parser raises `InvalidExtractionResultError` (JSON parse failure) instead of
tolerating it via a YAML fallback as the claim states. -/
theorem extractor_parse_single_quotes_rejected :
    extractionResultParse "\x7b\x27a\x27: 1\x7d" =
      .error "Failed to parse extraction result as JSON" := rfl

/-- C6 (amended): the extractor's parser takes the span from the first brace
to the last brace of the trimmed reply and strict-JSON-parses it only: a
reply with no braced span (including "no json here" and the non-object
"[1,2,3]") raises the no-JSON-object error, prose around a JSON object is
tolerated, but single-quoted YAML-style maps and double-wrapped braces raise
the JSON-parse error — there is no YAML fallback on this path (the tolerant
parser is used for validation responses). -/
theorem extractor_parse_strict_json :
    (∀ s : String, ¬ '\x7b' ∈ stripChars s.toList ∨ ¬ '\x7d' ∈ stripChars s.toList →
      extractionResultParse s = .error "No JSON object found in response") ∧
    extractionResultParse "Sure! ```json\n\x7b\x22a\x22: 1\x7d\n```" =
      .ok (Json.obj [("a", Json.num 1)]) ∧
    extractionResultParse "no json here" =
      .error "No JSON object found in response" ∧
    extractionResultParse "[1,2,3]" =
      .error "No JSON object found in response" ∧
    extractionResultParse "\x7b\x27a\x27: 1\x7d" =
      .error "Failed to parse extraction result as JSON" ∧
    extractionResultParse "\x7b\x7b\x22a\x22: 1\x7d\x7d" =
      .error "Failed to parse extraction result as JSON" := by
  refine ⟨?_, rfl, rfl, rfl, rfl, rfl⟩
  intro s h
  unfold extractionResultParse
  rcases h with h | h
  · have hf : List.findIdx? (fun c => c = '\x7b') (stripChars s.toList) = none := by
      rw [List.findIdx?_eq_none_iff]
      intro x hx
      simp only [decide_eq_false_iff_not]
      exact fun hxb => h (hxb ▸ hx)
    simp only [hf]
  · have hr : List.findIdx? (fun c => c = '\x7d')
        (stripChars s.toList).reverse = none := by
      rw [List.findIdx?_eq_none_iff]
      intro x hx
      simp only [decide_eq_false_iff_not]
      exact fun hxb => h (hxb ▸ (List.mem_reverse.mp hx))
    have hl : lastIdxOf '\x7d' (stripChars s.toList) = none := by
      unfold lastIdxOf; rw [hr]
    rcases hfb : List.findIdx? (fun c => c = '\x7b') (stripChars s.toList)
      with _ | i <;>
      simp only [hl, hfb]

/-- C6 witness: a reply with no braced span raises the no-JSON-object
error. -/
theorem extractor_parse_strict_json_w :
    extractionResultParse "abc" = .error "No JSON object found in response" :=
  extractor_parse_strict_json.1 "abc" (by decide)

end AgentExtractor
